import Mathlib

/-!
Verification development for the PyMCNP surface-card model
(`src/pymcnp/files/inp/surface.py`) and the PTRAC decoder
(`mcnptools/parse_ptrac.py`).

The Python code is shallowly embedded: Python `float` values are modelled
as exact decimals (`Dec`), Python `None` as `Option.none`, and Python exceptions
as an explicit `Except PyExc` result.  The helper modules `..utils._parser`
(`Preprocessor`/`Parser`/`Postprocessor`), `..utils.types`
(`cast_fortran_integer`/`cast_fortran_real`) and `.card` (`Card`) are not
part of the sources; they are modelled from the specification where
indicated below.
-/

/-- The MCNP semantic error codes raised by the surface constructors
(`errors.MCNPSemanticCodes`). -/
inductive MCNPSemanticCode where
  | invalidSurfaceMnemonic
  | invalidSurfaceParameter
  | invalidSurfaceNumber
  | invalidSurfaceTransformPeriodic
  | invalidSurfaceWhiteboundary
  | invalidSurfaceReflecting
deriving DecidableEq, Repr

/-- The MCNP syntax error codes raised by surface parsing
(`errors.MCNPSyntaxCodes`). -/
inductive MCNPSyntaxCode where
  | toofewSurface
  | toofewSurfaceEntries
deriving DecidableEq, Repr

/-- The exceptions a modelled Python computation can raise: the typed MCNP
errors plus the builtin Python exception classes that escape from the code
under study. -/
inductive PyExc where
  | semantic (c : MCNPSemanticCode)
  | syn (c : MCNPSyntaxCode)
  | typeError
  | keyError
  | indexError
  | nameError
  | valueError
  | stopIteration
  | assertionError
deriving DecidableEq, Repr

instance {ε α : Type} [DecidableEq ε] [DecidableEq α] : DecidableEq (Except ε α) :=
  fun x y =>
    match x, y with
    | .ok a, .ok b => decidable_of_iff (a = b) (by simp)
    | .error a, .error b => decidable_of_iff (a = b) (by simp)
    | .ok _, .error _ => isFalse (fun h => Except.noConfusion h)
    | .error _, .ok _ => isFalse (fun h => Except.noConfusion h)

/-- Modelled from the spec: `types.cast_fortran_integer` digit-run helper.
Returns the value of a nonempty all-digit character run, `none` otherwise. -/
def digitRunVal : List Char → Option Nat
  | [] => none
  | cs =>
    if cs.all Char.isDigit then
      some (cs.foldl (fun n c => 10 * n + (c.toNat - 48)) 0)
    else none

/-- Modelled from the spec: `types.cast_fortran_integer` (module
`..utils.types`, absent from the sources).  A FORTRAN-style integer token is
an optional sign followed by digits; anything else (including the `j`
placeholder) is not an integer and yields `none`. -/
def cast_fortran_integer (s : String) : Option Int :=
  match s.data with
  | '+' :: cs => (digitRunVal cs).map Int.ofNat
  | '-' :: cs => (digitRunVal cs).map (fun n => -(n : Int))
  | cs => (digitRunVal cs).map Int.ofNat

/-- An exact decimal number `mant / 10 ^ exp`, the model of the Python
float values written on surface cards.  Values built by `decOfDigits` are
canonical (no trailing fractional zeros), so structural equality coincides
with numeric equality for them. -/
structure Dec where
  mant : Int
  exp : Nat
deriving DecidableEq, Repr

/-- The numeric value of a `Dec` (for the reader; the executable pipeline
never needs it). -/
def Dec.toRat (d : Dec) : ℚ := (d.mant : ℚ) / (10 : ℚ) ^ d.exp

/-- Build the canonical `Dec` from sign, integer digits and fraction
digits, stripping trailing fractional zeros. -/
def decOfDigits (neg : Bool) (a b : List Char) : Dec :=
  let b' := (b.reverse.dropWhile (· = '0')).reverse
  let m : Nat := (a ++ b').foldl (fun n c => 10 * n + (c.toNat - 48)) 0
  { mant := if neg then -(m : Int) else (m : Int), exp := b'.length }

/-- Modelled from the spec: unsigned decimal part of
`types.cast_fortran_real`: digits with an optional fractional point. -/
def decimalVal (neg : Bool) (cs : List Char) : Option Dec :=
  match cs.splitOn '.' with
  | [a] => if a ≠ [] ∧ a.all Char.isDigit then some (decOfDigits neg a []) else none
  | [a, b] =>
    if a.all Char.isDigit ∧ b.all Char.isDigit ∧ (a ≠ [] ∨ b ≠ []) then
      some (decOfDigits neg a b)
    else none
  | _ => none

/-- Modelled from the spec: `types.cast_fortran_real` (module
`..utils.types`, absent from the sources).  Parses a FORTRAN-style real
token (optional sign, digits, optional decimal point); the `j` placeholder
and other non-numeric tokens yield `none` ("default/omitted"). -/
def cast_fortran_real (s : String) : Option Dec :=
  match s.data with
  | '+' :: cs => decimalVal false cs
  | '-' :: cs => decimalVal true cs
  | cs => decimalVal false cs

/-- ASCII lowercase of one character (Python `str.lower` on the card
alphabet). -/
def lowerChar (c : Char) : Char :=
  if 'A' ≤ c ∧ c ≤ 'Z' then Char.ofNat (c.toNat + 32) else c

/-- Split a character list at a separator character, keeping empty pieces
(Python `str.split(sep)`). -/
def splitChar (sep : Char) : List Char → List (List Char)
  | [] => [[]]
  | c :: cs =>
    let rest := splitChar sep cs
    if c = sep then [] :: rest
    else (c :: rest.headI) :: rest.tail

/-- Modelled from the spec: `Preprocessor.process_inp` followed by
`.split(" ")` (module `..utils._parser`, absent from the sources).  The
spec describes the token reader as splitting a card into whitespace
delimited tokens after case normalisation; the net token stream is the
lowercased nonempty space-separated words. -/
def process_inp_tokens (s : String) : List String :=
  ((splitChar ' ' s.data).filter (· ≠ [])).map (fun cs => String.mk (cs.map lowerChar))

/-- Modelled from the spec: `Preprocessor.process_inp` as a string-level
normaliser (lowercase, trim, collapse whitespace). -/
def process_inp (s : String) : String :=
  String.intercalate " " (process_inp_tokens s)

/-- Python `Parser.popl`, modelled from the spec: pop the leading token, raising
the parser's `TOOFEW_SURFACE` error on an exhausted stream. -/
def popl : List String → Except PyExc (String × List String)
  | [] => .error (.syn .toofewSurface)
  | t :: ts => .ok (t, ts)

/-- Python `Parser.peekl`, modelled from the spec: look at the leading token
without consuming it, raising `TOOFEW_SURFACE` on an exhausted stream. -/
def peekl : List String → Except PyExc String
  | [] => .error (.syn .toofewSurface)
  | t :: _ => .ok t

/-- The iteration order of `Surface.SurfaceMnemonic` (a Python `StrEnum`):
the canonical member values in declaration order.  `CONEONZ` is declared
with the duplicate value `"kx"`, so it is an alias of `CONEONX` and the
value `"kz"` does not occur. -/
def mnemonicValues : List String :=
  ["p", "px", "py", "pz", "so", "s", "sx", "sy", "sz",
   "c/x", "c/y", "c/z", "cx", "cy", "cz",
   "k/x", "k/y", "k/z", "kx", "ky",
   "sq", "gq", "tx", "ty", "tz", "x", "y", "z",
   "box", "rpp", "sph", "rcc", "rhp", "rec", "trc", "ell", "wed", "arb"]

/-- Lookup `Surface.SurfaceMnemonic.from_mcnp`: preprocess the token and accept it
only if it is one of the enum's values, else raise
`INVALID_SURFACE_MNEMONIC`. -/
def surfaceMnemonicFromMcnp (source : String) : Except PyExc String :=
  let source := process_inp source
  if mnemonicValues.contains source then .ok source
  else .error (.semantic .invalidSurfaceMnemonic)

/-- The validated surface record: the attributes every surface subclass
assigns (`number`, `mnemonic`, `transform`, `periodic`, `is_reflecting`,
`is_whiteboundary`, `parameters`), plus `kind`, the name of the Python
class the constructed object is re-classed to. -/
structure SurfaceRec where
  number : Int
  mnemonic : String
  transform : Option Int
  periodic : Option Int
  is_reflecting : Bool
  is_whiteboundary : Bool
  parameters : List (Option Dec)
  kind : String
deriving DecidableEq, Repr

/-- The common prologue of every surface subclass `__init__`: the number,
transform/periodic, whiteboundary and reflecting checks, followed by the
`transform_periodic if transform_periodic > 0 else None` /
`... < 0 ...` split.  When `transform_periodic` is `None` the comparison
`None > 0` raises `TypeError`, exactly as in Python. -/
def surfaceChecks (number : Option Int) (tp : Option Int)
    (iwb irf : Option Bool) : Except PyExc (Int × Option Int × Option Int) :=
  match number with
  | none => .error (.semantic .invalidSurfaceNumber)
  | some n =>
    if ¬(1 ≤ n ∧ n ≤ 99999999) then .error (.semantic .invalidSurfaceNumber)
    else
      match tp with
      | some t =>
        if ¬(-99999999 ≤ t ∧ t ≤ 999) then
          .error (.semantic .invalidSurfaceTransformPeriodic)
        else
          match iwb, irf with
          | none, _ => .error (.semantic .invalidSurfaceWhiteboundary)
          | some _, none => .error (.semantic .invalidSurfaceReflecting)
          | some wb, some rf =>
            if rf ∧ wb then .error (.semantic .invalidSurfaceReflecting)
            else .ok (n, if t > 0 then some t else none, if t < 0 then some t else none)
      | none =>
        match iwb, irf with
        | none, _ => .error (.semantic .invalidSurfaceWhiteboundary)
        | some _, none => .error (.semantic .invalidSurfaceReflecting)
        | some wb, some rf =>
          if rf ∧ wb then .error (.semantic .invalidSurfaceReflecting)
          else .error .typeError

/-- A subclass `__init__` whose parameters are all required (every subclass
except the axisymmetric and grouped-optional ones): Python raises
`TypeError` when the call does not supply exactly `arity` positional
parameters, then runs the prologue, then raises
`INVALID_SURFACE_PARAMETER` if any parameter is `None`. -/
def mkRequired (kind mnem : String) (arity : Nat) (number : Option Int)
    (tp : Option Int) (params : List (Option Dec)) (iwb irf : Option Bool) :
    Except PyExc SurfaceRec :=
  if params.length ≠ arity then .error .typeError
  else
    match surfaceChecks number tp iwb irf with
    | .error e => .error e
    | .ok (n, tr, pe) =>
      if params.any (·.isNone) then .error (.semantic .invalidSurfaceParameter)
      else
        .ok { number := n, mnemonic := mnem, transform := tr, periodic := pe,
              is_reflecting := irf.getD false, is_whiteboundary := iwb.getD false,
              parameters := params, kind := kind }

/-- The optional-group validation block of `SurfaceX`/`SurfaceY`/`SurfaceZ`
transcribed literally: the outer conditions use `and`, so the inner `None`
checks can never fire. -/
def axisymGuard (p2 r2 p3 r3 : Option Dec) : Except PyExc Unit :=
  if p2 ≠ none ∧ r2 ≠ none then
    if p2 = none then .error (.semantic .invalidSurfaceParameter)
    else if r2 = none then .error (.semantic .invalidSurfaceParameter)
    else if p3 ≠ none ∧ r3 ≠ none then
      if p3 = none then .error (.semantic .invalidSurfaceParameter)
      else if r3 = none then .error (.semantic .invalidSurfaceParameter)
      else .ok ()
    else .ok ()
  else .ok ()

/-- Constructor of `SurfaceX`/`SurfaceY`/`SurfaceZ`: two required parameters,
four individually-defaulted optional ones, the (vacuous) group guard, and
the six-slot `parameters` tuple. -/
def mkAxisym (kind mnem : String) (number : Option Int) (tp : Option Int)
    (params : List (Option Dec)) (iwb irf : Option Bool) :
    Except PyExc SurfaceRec :=
  if params.length < 2 ∨ 6 < params.length then .error .typeError
  else
    match surfaceChecks number tp iwb irf with
    | .error e => .error e
    | .ok (n, tr, pe) =>
      let slots := params ++ List.replicate (6 - params.length) none
      if slots.getD 0 none = none then .error (.semantic .invalidSurfaceParameter)
      else if slots.getD 1 none = none then .error (.semantic .invalidSurfaceParameter)
      else
        match axisymGuard (slots.getD 2 none) (slots.getD 3 none)
            (slots.getD 4 none) (slots.getD 5 none) with
        | .error e => .error e
        | .ok _ =>
          .ok { number := n, mnemonic := mnem, transform := tr, periodic := pe,
                is_reflecting := irf.getD false, is_whiteboundary := iwb.getD false,
                parameters := slots, kind := kind }

/-- Constructor of `Box`/`HexagonalPrism`/`CylinderElliptical`: `req` required
parameters followed by one all-or-nothing optional group of `opt`
parameters, guarded with `or` over the group (so a partial group raises
`INVALID_SURFACE_PARAMETER`). -/
def mkGrouped (kind mnem : String) (req opt : Nat) (number : Option Int)
    (tp : Option Int) (params : List (Option Dec)) (iwb irf : Option Bool) :
    Except PyExc SurfaceRec :=
  if params.length < req ∨ req + opt < params.length then .error .typeError
  else
    match surfaceChecks number tp iwb irf with
    | .error e => .error e
    | .ok (n, tr, pe) =>
      let slots := params ++ List.replicate (req + opt - params.length) none
      if (slots.take req).any (·.isNone) then .error (.semantic .invalidSurfaceParameter)
      else if (slots.drop req).any (·.isSome) ∧ (slots.drop req).any (·.isNone) then
        .error (.semantic .invalidSurfaceParameter)
      else
        .ok { number := n, mnemonic := mnem, transform := tr, periodic := pe,
              is_reflecting := irf.getD false, is_whiteboundary := iwb.getD false,
              parameters := slots, kind := kind }

/-- The mnemonic dispatch of `Surface.__init__`.  `"p"` is disambiguated by
parameter count (4 → `PlaneGeneralEquation`, otherwise
`PlaneGeneralPoint`); there is no `"kz"` case because `CONEONZ` is an alias
of `CONEONX` ("kx"), making the `ConeOnZ` branch unreachable. -/
def surfaceDispatch (m : String) (number : Option Int) (tp : Option Int)
    (params : List (Option Dec)) (iwb irf : Option Bool) :
    Except PyExc SurfaceRec :=
  if m = "p" then
    if params.length = 4 then mkRequired "PlaneGeneralEquation" "p" 4 number tp params iwb irf
    else mkRequired "PlaneGeneralPoint" "p" 9 number tp params iwb irf
  else if m = "px" then mkRequired "PlaneNormalX" "px" 1 number tp params iwb irf
  else if m = "py" then mkRequired "PlaneNormalY" "py" 1 number tp params iwb irf
  else if m = "pz" then mkRequired "PlaneNormalZ" "pz" 1 number tp params iwb irf
  else if m = "so" then mkRequired "SphereOrigin" "so" 1 number tp params iwb irf
  else if m = "s" then mkRequired "SphereGeneral" "s" 4 number tp params iwb irf
  else if m = "sx" then mkRequired "SphereNormalX" "sx" 2 number tp params iwb irf
  else if m = "sy" then mkRequired "SphereNormalY" "sy" 2 number tp params iwb irf
  else if m = "sz" then mkRequired "SphereNormalZ" "sz" 2 number tp params iwb irf
  else if m = "c/x" then mkRequired "CylinderParallelX" "c/x" 3 number tp params iwb irf
  else if m = "c/y" then mkRequired "CylinderParallelY" "c/y" 3 number tp params iwb irf
  else if m = "c/z" then mkRequired "CylinderParallelZ" "c/z" 3 number tp params iwb irf
  else if m = "cx" then mkRequired "CylinderOnX" "cx" 1 number tp params iwb irf
  else if m = "cy" then mkRequired "CylinderOnY" "cy" 1 number tp params iwb irf
  else if m = "cz" then mkRequired "CylinderOnZ" "cz" 1 number tp params iwb irf
  else if m = "k/x" then mkRequired "ConeParallelX" "k/x" 5 number tp params iwb irf
  else if m = "k/y" then mkRequired "ConeParallelY" "k/y" 5 number tp params iwb irf
  else if m = "k/z" then mkRequired "ConeParallelZ" "k/z" 5 number tp params iwb irf
  else if m = "kx" then mkRequired "ConeOnX" "kx" 3 number tp params iwb irf
  else if m = "ky" then mkRequired "ConeOnY" "ky" 3 number tp params iwb irf
  else if m = "sq" then mkRequired "QuadraticSpecial" "sq" 10 number tp params iwb irf
  else if m = "gq" then mkRequired "QuadraticGeneral" "gq" 10 number tp params iwb irf
  else if m = "tx" then mkRequired "TorusParallelX" "tx" 6 number tp params iwb irf
  else if m = "ty" then mkRequired "TorusParallelY" "ty" 6 number tp params iwb irf
  else if m = "tz" then mkRequired "TorusParallelZ" "tz" 6 number tp params iwb irf
  else if m = "x" then mkAxisym "SurfaceX" "x" number tp params iwb irf
  else if m = "y" then mkAxisym "SurfaceY" "y" number tp params iwb irf
  else if m = "z" then mkAxisym "SurfaceZ" "z" number tp params iwb irf
  else if m = "box" then mkGrouped "Box" "box" 9 3 number tp params iwb irf
  else if m = "rpp" then mkRequired "Parallelepiped" "rpp" 6 number tp params iwb irf
  else if m = "sph" then mkRequired "Sphere" "sph" 4 number tp params iwb irf
  else if m = "rcc" then mkRequired "CylinderCircular" "rcc" 7 number tp params iwb irf
  else if m = "rhp" then mkGrouped "HexagonalPrism" "rhp" 9 6 number tp params iwb irf
  else if m = "rec" then mkGrouped "CylinderElliptical" "rec" 10 2 number tp params iwb irf
  else if m = "trc" then mkRequired "ConeTruncated" "trc" 8 number tp params iwb irf
  else if m = "ell" then mkRequired "Ellipsoid" "ell" 7 number tp params iwb irf
  else if m = "wed" then mkRequired "Wedge" "wed" 12 number tp params iwb irf
  else if m = "arb" then mkRequired "Polyhedron" "arb" 30 number tp params iwb irf
  else .error .assertionError

/-- Constructor `Surface.__init__`: the `mnemonic is None` check, the
`parameters is None or not parameters` check, the subclass dispatch, and
the `except TypeError` handler that converts any `TypeError` raised by the
subclass call into `TOOFEW_SURFACE_ENTRIES`.  (`card.Card.__init__`,
absent from the sources, is modelled from the spec as storing the number;
the number-range invariant is re-checked by every subclass.) -/
def surfaceInit (number : Option Int) (mnemonic : Option String)
    (tp : Option Int) (params : List (Option Dec)) (iwb irf : Option Bool) :
    Except PyExc SurfaceRec :=
  match mnemonic with
  | none => .error (.semantic .invalidSurfaceMnemonic)
  | some m =>
    if params.isEmpty then .error (.semantic .invalidSurfaceParameter)
    else
      match surfaceDispatch m number tp params iwb irf with
      | .error .typeError => .error (.syn .toofewSurfaceEntries)
      | r => r

/-- The boundary-condition block of `Surface.from_mcnp`: a leading `+` on
the first token sets `is_whiteboundary`, a leading `*` sets
`is_reflecting`, and the consumed character is pushed back stripped. -/
def parseBoundaryFlags (toks : List String) :
    Except PyExc (Bool × Bool × List String) :=
  match toks with
  | [] => .error (.syn .toofewSurface)
  | t :: ts =>
    match t.data with
    | [] => .error .indexError
    | c :: cs =>
      if c = '+' then .ok (true, false, String.mk cs :: ts)
      else if c = '*' then .ok (false, true, String.mk cs :: ts)
      else .ok (false, false, t :: ts)

/-- Parsing `Surface.from_mcnp`: inline-comment split at `$`, preprocessing and
tokenisation, boundary prefix, number, optional transform/periodic
integer, mnemonic, trailing real parameters, then `Surface.__init__`. -/
def surfaceFromMcnp (source : String) : Except PyExc SurfaceRec :=
  let parts := splitChar '$' source.data
  match parts with
  | [] => .error .valueError
  | [src] => surfaceFromMcnpTokens (process_inp_tokens (String.mk src))
  | [src, _] => surfaceFromMcnpTokens (process_inp_tokens (String.mk src))
  | _ => .error .valueError
where
  /-- The token-level body of `Surface.from_mcnp` after preprocessing. -/
  surfaceFromMcnpTokens (toks : List String) : Except PyExc SurfaceRec :=
    match parseBoundaryFlags toks with
    | .error e => .error e
    | .ok (iwb, irf, toks) =>
      match popl toks with
      | .error e => .error e
      | .ok (numTok, toks) =>
        let number := cast_fortran_integer numTok
        match peekl toks with
        | .error e => .error e
        | .ok peekTok =>
          let step : Except PyExc (Option Int × List String) :=
            if (cast_fortran_integer peekTok).isSome then
              match popl toks with
              | .error e => .error e
              | .ok (t, rest) => .ok (cast_fortran_integer t, rest)
            else .ok (none, toks)
          match step with
          | .error e => .error e
          | .ok (tp, toks) =>
            match popl toks with
            | .error e => .error e
            | .ok (mnemTok, toks) =>
              match surfaceMnemonicFromMcnp mnemTok with
              | .error e => .error e
              | .ok mnem =>
                surfaceInit number (some mnem) tp (toks.map cast_fortran_real)
                  (some iwb) (some irf)

/-- Python `str` of the whole-valued floats this development serialises
(`str(5.0) = "5.0"`); non-integral rationals fall back to the raw rational
rendering, which no theorem below exercises. -/
def decToPyStr (d : Dec) : String :=
  if d.exp = 0 then toString d.mant ++ ".0"
  else
    let ds := (toString d.mant.natAbs).data
    let ds := List.replicate (d.exp + 1 - ds.length) '0' ++ ds
    (if d.mant < 0 then "-" else "") ++ String.mk (ds.take (ds.length - d.exp)) ++
      "." ++ String.mk (ds.drop (ds.length - d.exp))

/-- Serialisation `Surface.to_mcnp`: the f-string
`f"{number}{' ' + {transform} + ' ' if transform is not None else ' '}..."`.
When `transform` is set the middle piece evaluates `' ' + {t} + ' '`, a
string/set concatenation, raising `TypeError`; otherwise the card is the
number, the mnemonic and the space-joined parameters (`None` rendered as
the empty string).  The boundary prefix and the periodic number are never
emitted.  (`Postprocessor.add_continuation_lines`, absent from the
sources, is modelled from the spec as the identity on the short card texts
considered here.) -/
def surfaceToMcnp (s : SurfaceRec) : Except PyExc String :=
  match s.transform with
  | some _ => .error .typeError
  | none =>
    .ok (toString s.number ++ " " ++ s.mnemonic ++ " " ++
      String.intercalate " " (s.parameters.map (fun p =>
        match p with
        | some q => decToPyStr q
        | none => "")))

/-- The dictionary returned by `Surface.to_arguments`, with one field per
key: `"j"`, `"+"` (`plus`), `"*"` (`star`), `"n"`, `"A"`, `"list"`. -/
structure SurfaceArgs where
  j : Int
  plus : Bool
  star : Bool
  n : Option Int
  A : String
  list : List (Option Dec)
deriving DecidableEq, Repr

/-- Dictionary `Surface.to_arguments`: key `"+"` receives `is_reflecting` and key
`"*"` receives `is_whiteboundary`. -/
def surfaceToArguments (s : SurfaceRec) : SurfaceArgs :=
  { j := s.number, plus := s.is_reflecting, star := s.is_whiteboundary,
    n := s.transform, A := s.mnemonic, list := s.parameters }

/-! ### PTRAC decoder (`mcnptools/parse_ptrac.py`) -/

/-- A fixed-format FORTRAN record read (library `fortranformat`): reading
`slots` fields from a physical line yields the values present, padded with
`None` for fields past the end of the record and truncated at `slots`. -/
def readRecord (slots : Nat) (line : List Int) : List (Option Int) :=
  (line.map some).take slots ++ List.replicate (slots - line.length) none

/-- The identifier lines of the PTRAC header are written thirty to a line:
chunk a run of identifiers accordingly. -/
def chunks30 : List Int → List (List Int)
  | [] => []
  | a :: l => ((a :: l).take 30) :: chunks30 ((a :: l).drop 30)
termination_by l => l.length
decreasing_by simp; omega

/-- The eleven leading entries of the header's `N` line: the NPS-line field
count followed by the five category pairs (source, bank, surface,
collision, termination). -/
structure PtracCounts where
  nps : Nat
  src1 : Nat
  src2 : Nat
  bnk1 : Nat
  bnk2 : Nat
  sur1 : Nat
  sur2 : Nat
  col1 : Nat
  col2 : Nat
  ter1 : Nat
  ter2 : Nat
deriving DecidableEq, Repr

/-- Count `self.N1`. -/
def cN1 (c : PtracCounts) : Nat := c.nps

/-- Prefix sum `N_src = N1 + N[1] + N[2]`. -/
def cNsrc (c : PtracCounts) : Nat := cN1 c + c.src1 + c.src2

/-- Prefix sum `N_bnk = N_src + N[3] + N[4]`. -/
def cNbnk (c : PtracCounts) : Nat := cNsrc c + c.bnk1 + c.bnk2

/-- Prefix sum `N_sur = N_bnk + N[5] + N[6]`. -/
def cNsur (c : PtracCounts) : Nat := cNbnk c + c.sur1 + c.sur2

/-- Prefix sum `N_col = N_sur + N[7] + N[8]`. -/
def cNcol (c : PtracCounts) : Nat := cNsur c + c.col1 + c.col2

/-- Prefix sum `N_ter = N_col + N[9] + N[10]`, the total identifier count `need`. -/
def cNter (c : PtracCounts) : Nat := cNcol c + c.ter1 + c.ter2

/-- Python slice `L[a:b]` for `0 ≤ a ≤ b`. -/
def pySlice (L : List α) (a b : Nat) : List α := (L.take b).drop a

/-- The per-category identifier slices stored into `self.IDS`. -/
structure PtracIdLayout where
  nps : List (Option Int)
  src : List (Option Int)
  bank : List (Option Int)
  surface : List (Option Int)
  collision : List (Option Int)
  termination : List (Option Int)
deriving DecidableEq, Repr

/-- The length-driven identifier read loop of `Header.parse`: while fewer
than `need` values have accumulated, read another line with format
`(1x,pi4)` where `p = 30` if more than thirty values are still missing and
the exact remainder otherwise.  Running out of lines raises
`StopIteration`, modelled as `none`. -/
def idLoop (need : Nat) : List (List Int) → List (Option Int) →
    Option (List (Option Int) × List (List Int))
  | [], L => if need ≤ L.length then some (L, []) else none
  | line :: rest, L =>
    if need ≤ L.length then some (L, line :: rest)
    else idLoop need rest (L ++ readRecord (min 30 (need - L.length)) line)

/-- The identifier-run block of `Header.parse`: one unconditional
`(1x,30i4)` line read, the length-driven loop, then the prefix-sum slices
assigned to the six categories in the fixed order NPS, source, bank,
surface, collision, termination. -/
def headerIdBlock (c : PtracCounts) (lines : List (List Int)) :
    Option (PtracIdLayout × List (List Int)) :=
  match lines with
  | [] => none
  | line0 :: rest =>
    (idLoop (cNter c) rest (readRecord 30 line0)).map (fun p =>
      ({ nps := pySlice p.1 0 (cN1 c),
         src := pySlice p.1 (cN1 c) (cNsrc c),
         bank := pySlice p.1 (cNsrc c) (cNbnk c),
         surface := pySlice p.1 (cNbnk c) (cNsur c),
         collision := pySlice p.1 (cNsur c) (cNcol c),
         termination := pySlice p.1 (cNcol c) (cNter c) }, p.2))

/-- Resolver `parse_event`: resolve a next-event code, every unlisted code meaning a
bank event. -/
def parse_event (e : Int) : String :=
  if e = 1000 then "initial source"
  else if e = 3000 then "surface"
  else if e = 4000 then "collision"
  else if e = 5000 then "termination"
  else if e = 9000 then "final"
  else "bank"

/-- Lookup `get_particle`: the closed `PARTICLE` table; an unrecognised IPT value
is logged and replaced by the empty string. -/
def get_particle (nr : Int) : String :=
  if nr = 1 then "neutron" else if nr = 2 then "photon" else ""

/-- The `bank_event_type` table: description and "bank extra" flag per bank
sub-event code. -/
def bank_event_type (k : Int) : Option (String × Bool) :=
  if k = 1 then some ("DXTRAN Track", true)
  else if k = 2 then some ("Energy Split", false)
  else if k = 3 then some ("Weight-Window Surface Split", false)
  else if k = 4 then some ("Weight-Window Collision Split", true)
  else if k = 5 then some ("Forced Collision-Uncollided Part", false)
  else if k = 6 then some ("Importance Split", false)
  else if k = 7 then
    some ("Neutron from Neutron ( n , xn ) ( n , f ) and Secondary Particles from Library Protons", true)
  else if k = 8 then some ("Photon from Neutron", true)
  else if k = 9 then some ("Photon from Double Fluorescence", true)
  else if k = 10 then some ("Photon from Annihilation", false)
  else if k = 11 then some ("Electron from Photoelectric", true)
  else if k = 12 then some ("Electron from Compton", true)
  else if k = 13 then some ("Electron from Pair Production", true)
  else if k = 14 then some ("Auger Electron from Photon/X-ray", true)
  else if k = 15 then some ("Positron from Pair Production", false)
  else if k = 16 then some ("Bremsstrahlung from Electron", true)
  else if k = 17 then some ("Knock-on Electron", false)
  else if k = 18 then some ("X-rays from Electron", false)
  else if k = 19 then some ("Photon from Neutron - Multigroup", true)
  else if k = 20 then some ("Neutron ( n , f ) - Multigroup", true)
  else if k = 21 then some ("Neutron ( n , xn ) k- Multigroup", true)
  else if k = 22 then some ("Photo from Photon - Multigroup", true)
  else if k = 23 then some ("Adjoint Weight Split - Multigroup", false)
  else if k = 24 then some ("Weight-Window Pseudo-Collision Split", false)
  else if k = 25 then some ("Secondary Particles from Photonuclear", true)
  else if k = 26 then
    some ("DXTRAN annihilation photon from pulse-height tally variance reduction", true)
  else if k = 30 then some ("Light Ions from Neutrons", true)
  else if k = 31 then some ("Light Ions from Protons", true)
  else if k = 32 then some ("Library Neutrons from Model Neutrons", false)
  else if k = 33 then some ("Secondary Particles from Inelastic Nuclear Interactions", false)
  else if k = 34 then some ("Secondary Particles from Elastic Nuclear Interactions", false)
  else none

/-- Lookup `parse_bank`: shift the (sign-adjusted) bank event code by 2000 and
look it up; codes in neither range, and shifted codes absent from the
table, fall off the function and return `None`. -/
def parse_bank (event : Int) : Option (String × Bool) :=
  if event > 1999 then bank_event_type (event - 2000)
  else if event < -1999 then bank_event_type (-event - 2000)
  else none

/-- Table `lookup_ntyn` (the event decoder always calls it with the default
`neutron=True`). -/
def lookup_ntyn (idx : Int) (neutron : Bool) : String :=
  if neutron then
    if idx = 1 then "Inelastic S(alpha, beta)"
    else if idx = 2 then "Elastic S(alpha, beta)"
    else if idx = -99 then "Elastic scatter/Inelastic scatter"
    else if idx > 5 then "ENDF Reaction ID"
    else "Error ntyn lookup: shouldn't happen " ++ toString idx
  else
    if idx = 1 then "Incoheren scatter"
    else if idx = 2 then "Coherent scatter"
    else if idx = 3 then "Fluorescence"
    else if idx = 4 then "Pair production"
    else if idx = 5 then "Pair production"
    else "Error ntyn lookup: shouldn't happen " ++ toString idx

/-- The `termination_type` table (codes 1–10, common to all particles). -/
def termination_type (idx : Int) : Option String :=
  if idx = 1 then some "Escape"
  else if idx = 2 then some "Energy cutoff"
  else if idx = 3 then some "Time cutoff"
  else if idx = 4 then some "Weight window"
  else if idx = 5 then some "Cell importance"
  else if idx = 6 then some "Weight cutoff"
  else if idx = 7 then some "Energy importance"
  else if idx = 8 then some "DXTRAN"
  else if idx = 9 then some "Forced collision"
  else if idx = 10 then some "Exponential transform"
  else none

/-- The `termination_type_neutron` table (codes 11–17). -/
def termination_type_neutron (idx : Int) : Option String :=
  if idx = 11 then some "Downscattering"
  else if idx = 12 then some "Capture"
  else if idx = 13 then some "Loss to (x, xn)"
  else if idx = 14 then some "Loss to fission"
  else if idx = 15 then some "Nuclear Interactions"
  else if idx = 16 then some "Particle decay"
  else if idx = 17 then some "Tabular boundary"
  else none

/-- The `termination_type_photon` table (codes 11–14). -/
def termination_type_photon (idx : Int) : Option String :=
  if idx = 11 then some " Compton scatter"
  else if idx = 12 then some "Capture"
  else if idx = 13 then some "Pair production"
  else if idx = 14 then some "Photonuclear"
  else none

/-- Lookup `get_termination_type`: codes below 11 use the common table (a missing
code raises `KeyError`); codes of 11 and above use the per-particle table
for a recognised particle (again raising `KeyError` when absent) and fall
through to the "need to implement" placeholder string for any other
particle value. -/
def get_termination_type (idx : Int) (particle : Option String) :
    Except PyExc String :=
  if idx < 11 then
    match termination_type idx with
    | some s => .ok s
    | none => .error .keyError
  else if particle = some "neutron" then
    match termination_type_neutron idx with
    | some s => .ok s
    | none => .error .keyError
  else if particle = some "photon" then
    match termination_type_photon idx with
    | some s => .ok s
    | none => .error .keyError
  else
    .ok ("need to implement termination type " ++ toString idx ++ " for " ++
      (match particle with | some s => s | none => "None"))

/-- Python `dict` insertion (replace the binding if the key is present,
else append). -/
def dinsert (k : String) (v : Int) : List (String × Int) → List (String × Int)
  | [] => [(k, v)]
  | (k', v') :: d => if k' = k then (k, v) :: d else (k', v') :: dinsert k v d

/-- Python `dict(zip(names, values))` (later duplicate names overwrite earlier
ones, and `zip` stops at the shorter list). -/
def buildDict (ks : List String) (vs : List Int) : List (String × Int) :=
  (List.zip ks vs).foldl (fun d kv => dinsert kv.1 kv.2 d) []

/-- Python `d.pop(k, None)`: the bound value (if any) and the dictionary
without the key. -/
def dpop (k : String) : List (String × Int) → Option Int × List (String × Int)
  | [] => (none, [])
  | (k', v) :: d =>
    if k' = k then (some v, d)
    else
      let r := dpop k d
      (r.1, (k', v) :: r.2)

/-- The decoded attributes of one PTRAC `Event` (`Event.parse`): the raw
popped field values together with the resolved lookups.  Line values are
modelled as the integers the integral-valued test records carry. -/
structure EventRec where
  event_type : String
  bank_extra : Option Bool
  ntyn : Option String
  nxs : Option Int
  particle_raw : Option Int
  particle : Option String
  source : Option Int
  node : Option Int
  surface : Option Int
  cell_number : Option Int
  material : Option Int
  branch_number : Option Int
  angle : Option Int
  termination_raw : Option Int
  termination : Option String
  pos : Option (Int × Int × Int)
  dir : Option (Int × Int × Int)
  ncp : Option Int
  energy : Option Int
  weight : Option Int
  time : Option Int
  misc : List (String × Int)
deriving DecidableEq, Repr

/-- Decoder `Event.parse`: zip the header's per-category identifier names with the
event line, resolve the bank sub-event (`parse_bank` returning `None` makes
the two-target unpacking raise `TypeError`), pop each known field in source
order, run the particle/termination lookups, and return the updated
history state `(current_event, current_event_id)` taken from `line[0]`.
(The temporary `"type"`/`"bank extra"` dictionary keys of the source are
modelled as locals; no identifier table name collides with them.) -/
def eventStep (layout : String → List String) (cur : String) (curId : Int)
    (line : List Int) : Except PyExc (EventRec × String × Int) :=
  let d := buildDict (layout cur) line
  let bankRes : Except PyExc (String × Option Bool) :=
    if cur = "bank" then
      match parse_bank curId with
      | none => .error .typeError
      | some (t, e) => .ok (t, some e)
    else .ok (cur, none)
  match bankRes with
  | .error e => .error e
  | .ok (event_type, bank_extra) =>
    let ntynStep : Except PyExc ((Option String × Option Int) × List (String × Int)) :=
      if bank_extra = some true ∨ event_type = "collision" then
        match dpop "NTYN/MTP" d with
        | (none, _) => .error .keyError
        | (some v, d) =>
          match dpop "NXS" d with
          | (none, _) => .error .keyError
          | (some w, d) => .ok ((some (lookup_ntyn v true), some w), d)
      else .ok ((none, none), d)
    match ntynStep with
    | .error e => .error e
    | .ok ((ntyn, nxs), d) =>
      let (particle_raw, d) := dpop "IPT" d
      let (source, d) := dpop "NSR" d
      let (node, d) := dpop "NODE" d
      let (surface, d) := dpop "Surface number" d
      let particle : Option String :=
        match particle_raw with
        | some v => if v ≠ 0 then some (get_particle v) else none
        | none => none
      let (cell_number, d) := dpop "NCL" d
      let (material, d) := dpop "MAT" d
      let (branch_number, d) := dpop "branch number for this history" d
      let (angle, d) := dpop "angle with surface normal" d
      let (termination_raw, d) := dpop "termination type" d
      let termStep : Except PyExc (Option String) :=
        match termination_raw with
        | some tv =>
          if tv ≠ 0 then
            match get_termination_type tv particle with
            | .error e => .error e
            | .ok s => .ok (some s)
          else .ok none
        | none => .ok none
      match termStep with
      | .error e => .error e
      | .ok termination =>
        let (x, d) := dpop "XXX" d
        let (y, d) := dpop "YYY" d
        let (z, d) := dpop "ZZZ" d
        let posStep : Except PyExc (Option (Int × Int × Int)) :=
          match x with
          | none => .ok none
          | some xv =>
            match y, z with
            | some yv, some zv => .ok (some (xv, yv, zv))
            | _, _ => .error .typeError
        match posStep with
        | .error e => .error e
        | .ok pos =>
          let (u, d) := dpop "UUU" d
          let (v, d) := dpop "VVV" d
          let (w, d) := dpop "WWW" d
          let dirStep : Except PyExc (Option (Int × Int × Int)) :=
            match u with
            | none => .ok none
            | some uv =>
              match v, w with
              | some vv, some wv => .ok (some (uv, vv, wv))
              | _, _ => .error .typeError
          match dirStep with
          | .error e => .error e
          | .ok dir =>
            let (ncp, d) := dpop "NCP" d
            let (energy, d) := dpop "ERG" d
            let (weight, d) := dpop "WGT" d
            let (time, d) := dpop "TME" d
            let (_, d) := dpop "next event type" d
            match line.head? with
            | none => .error .indexError
            | some nid =>
              .ok ({ event_type := event_type, bank_extra := bank_extra,
                     ntyn := ntyn, nxs := nxs,
                     particle_raw := particle_raw, particle := particle,
                     source := source, node := node, surface := surface,
                     cell_number := cell_number, material := material,
                     branch_number := branch_number, angle := angle,
                     termination_raw := termination_raw, termination := termination,
                     pos := pos, dir := dir, ncp := ncp, energy := energy,
                     weight := weight, time := time, misc := d },
                    parse_event nid, nid)

/-- The part of the parsed PTRAC header that drives history decoding: the
NPS-line field count `N1` and the per-category identifier names `IDS`. -/
structure PtracRunHeader where
  N1 : Nat
  IDS : String → List String

/-- Constructor `History.__init__`: read the I-line with format `(1x,(N1-1)i10,e13.5)`
(always `N1` fields, padded with `None`), then branch on the field count.
Counts 2 and 3 bind too few locals, so the unconditional `self.a = a` /
`self.b = b` assignments raise `NameError`; counts outside 2–6 leave even
`n` unbound.  A missing second field fails `int(next_type_id)` and a
missing first field fails `int(n)`, both `TypeError`. -/
def historyInit (N1 : Nat) (iline : List Int) : Except PyExc (String × Int) :=
  let fields := readRecord N1 iline
  if N1 = 2 ∨ N1 = 3 then
    match fields.getD 1 none with
    | none => .error .typeError
    | some _ =>
      match fields.getD 0 none with
      | none => .error .typeError
      | some _ => .error .nameError
  else if N1 = 4 ∨ N1 = 5 ∨ N1 = 6 then
    match fields.getD 1 none with
    | none => .error .typeError
    | some tid =>
      match fields.getD 0 none with
      | none => .error .typeError
      | some _ => .ok (parse_event tid, tid)
  else .error .nameError

/-- The inner loop of `read_file`: while the pending event category is not
the `"final"` sentinel, read a J-line (format `(1x,8e10.0)`) and a P-line
(format `(1x,9e13.5)`), filter the `None` padding, decode the event, and
continue with the state it returns.  `next(fin)` raising `StopIteration`
is modelled as the corresponding error value. -/
def histLoop (hdr : PtracRunHeader) (st : String × Int) :
    List (List Int) → Except PyExc (List (List Int))
  | [] => if st.1 = "final" then .ok [] else .error .stopIteration
  | [l] => if st.1 = "final" then .ok [l] else .error .stopIteration
  | j :: p :: rest =>
    if st.1 = "final" then .ok (j :: p :: rest)
    else
      match eventStep hdr.IDS st.1 st.2 (j.take 8 ++ p.take 9) with
      | .error e => .error e
      | .ok (_, cur2, id2) => histLoop hdr (cur2, id2) rest

/-- A successful `histLoop` never lengthens the remaining line stream. -/
theorem histLoop_length_le (hdr : PtracRunHeader) :
    ∀ (n : Nat) (st : String × Int) (lines : List (List Int)),
      lines.length = n → ∀ r, histLoop hdr st lines = .ok r →
        r.length ≤ lines.length := by
  intro n
  induction n using Nat.strong_induction_on with
  | _ n ih =>
    intro st lines hn r h
    match lines with
    | [] =>
      unfold histLoop at h
      split at h
      · cases h; simp
      · cases h
    | [l] =>
      unfold histLoop at h
      split at h
      · cases h; simp
      · cases h
    | j :: p :: rest =>
      unfold histLoop at h
      split at h
      · cases h; simp
      · split at h
        · cases h
        · simp only [List.length_cons] at hn
          have hr : rest.length < n := by omega
          have := ih rest.length hr _ rest rfl r h
          simp only [List.length_cons]
          omega

/-- The outer loop of `read_file`: read an I-line (raising `StopIteration`
at end of input), build the history, run its event loop, and repeat on the
remaining lines. -/
def readFileLoop (hdr : PtracRunHeader) (lines : List (List Int)) :
    Except PyExc Unit :=
  match lines with
  | [] => .error .stopIteration
  | iline :: rest =>
    match historyInit hdr.N1 iline with
    | .error e => .error e
    | .ok st =>
      match hlr : histLoop hdr st rest with
      | .error e => .error e
      | .ok rest2 => readFileLoop hdr rest2
termination_by lines.length
decreasing_by
  have := histLoop_length_le hdr rest.length st rest rfl rest2 hlr
  simp
  omega

/-- Outcome of `read_file`: its success predicate -- the history loop runs under
`try ... except StopIteration: pass`, so a decode ending in
`StopIteration` — wherever it was raised — returns normally, and only
other exceptions propagate. -/
def readFileSuccess (hdr : PtracRunHeader) (lines : List (List Int)) : Bool :=
  match readFileLoop hdr lines with
  | .error .stopIteration => true
  | .error _ => false
  | .ok _ => true

/-! ### Helper lemmas for the surface constructors -/

theorem any_isNone_eq_false {params : List (Option Dec)}
    (hp : ∀ p ∈ params, p.isSome) : params.any (·.isNone) = false := by
  simp only [List.any_eq_false]
  intro x hx
  cases x with
  | none => simpa using hp none hx
  | some a => simp

theorem surfaceChecks_ok (n t : Int) (hn : 1 ≤ n ∧ n ≤ 99999999)
    (ht : -99999999 ≤ t ∧ t ≤ 999) :
    surfaceChecks (some n) (some t) (some false) (some false) =
      .ok (n, if t > 0 then some t else none, if t < 0 then some t else none) := by
  simp [surfaceChecks, hn.1, hn.2, ht.1, ht.2]

theorem mkRequired_ok (kind mnem : String) (arity : Nat) (n t : Int)
    (hn : 1 ≤ n ∧ n ≤ 99999999) (ht : -99999999 ≤ t ∧ t ≤ 999)
    (params : List (Option Dec)) (hlen : params.length = arity)
    (hp : ∀ p ∈ params, p.isSome) :
    mkRequired kind mnem arity (some n) (some t) params (some false) (some false) =
      .ok { number := n, mnemonic := mnem,
            transform := if t > 0 then some t else none,
            periodic := if t < 0 then some t else none,
            is_reflecting := false, is_whiteboundary := false,
            parameters := params, kind := kind } := by
  simp [mkRequired, hlen, surfaceChecks_ok n t hn ht, any_isNone_eq_false hp]

theorem mkRequired_arity_typeError (kind mnem : String) (arity : Nat)
    (number tp : Option Int) (params : List (Option Dec)) (iwb irf : Option Bool)
    (hlen : params.length ≠ arity) :
    mkRequired kind mnem arity number tp params iwb irf = .error .typeError := by
  simp [mkRequired, hlen]

/-! ### Claim theorems: surface model -/

/-- C2: the claim asserts that parsing `"1 SO 5.0"` succeeds with
`number=1`, `kind=SphereOrigin`, `r=5.0` and no transform/periodic.  The
code instead raises `TOOFEW_SURFACE_ENTRIES`: with no transform token,
`transform_periodic` is `None`, and `SphereOrigin.__init__` evaluates
`transform_periodic > 0`, a `None`-to-integer comparison whose `TypeError`
the `Surface.__init__` handler converts to `TOOFEW_SURFACE_ENTRIES`. -/
theorem c2_parse_so_card_fails :
    surfaceFromMcnp "1 SO 5.0" = .error (.syn .toofewSurfaceEntries) := by decide

/-- C1: the round-trip law fails on every constructible surface.  A
surface is constructible only with a transform/periodic value present
(otherwise the `None > 0` comparison aborts construction); with a periodic
(negative) value, `to_mcnp` silently drops the field, so re-parsing the
emitted card aborts with `TOOFEW_SURFACE_ENTRIES`; with a transform
(positive) value, `to_mcnp` itself raises `TypeError` on the
`' ' + {self.transform} + ' '` string/set concatenation. -/
theorem c1_roundtrip_fails :
    surfaceInit (some 1) (some "so") (some (-1)) [some ⟨5, 0⟩]
        (some false) (some false) =
      .ok { number := 1, mnemonic := "so", transform := none,
            periodic := some (-1), is_reflecting := false,
            is_whiteboundary := false, parameters := [some ⟨5, 0⟩],
            kind := "SphereOrigin" } ∧
    surfaceToMcnp
        { number := 1, mnemonic := "so", transform := none,
          periodic := some (-1), is_reflecting := false,
          is_whiteboundary := false, parameters := [some ⟨5, 0⟩],
          kind := "SphereOrigin" } = .ok "1 so 5.0" ∧
    surfaceFromMcnp "1 so 5.0" = .error (.syn .toofewSurfaceEntries) ∧
    surfaceInit (some 1) (some "so") (some 1) [some ⟨5, 0⟩]
        (some false) (some false) =
      .ok { number := 1, mnemonic := "so", transform := some 1,
            periodic := none, is_reflecting := false,
            is_whiteboundary := false, parameters := [some ⟨5, 0⟩],
            kind := "SphereOrigin" } ∧
    surfaceToMcnp
        { number := 1, mnemonic := "so", transform := some 1,
          periodic := none, is_reflecting := false,
          is_whiteboundary := false, parameters := [some ⟨5, 0⟩],
          kind := "SphereOrigin" } = .error .typeError := by decide

/-- C5: the claim asserts that a partial optional group raises
`InvalidParameter` for every kind with optional trailing groups.  For the
axisymmetric `SurfaceX` the group guard is dead code (`x2 is not None and
r2 is not None` instead of `or`), so supplying `x2` without `r2` succeeds
and stores the partial group; supplying no group also succeeds; the `Box`
guard (written with `or`) does raise `InvalidParameter` on a partial
group. -/
theorem c5_partial_group_accepted_on_surfacex :
    surfaceInit (some 1) (some "x") (some 1)
        [some ⟨1, 0⟩, some ⟨2, 0⟩, some ⟨3, 0⟩] (some false) (some false) =
      .ok { number := 1, mnemonic := "x", transform := some 1,
            periodic := none, is_reflecting := false,
            is_whiteboundary := false,
            parameters := [some ⟨1, 0⟩, some ⟨2, 0⟩, some ⟨3, 0⟩, none, none, none],
            kind := "SurfaceX" } ∧
    surfaceInit (some 1) (some "x") (some 1)
        [some ⟨1, 0⟩, some ⟨2, 0⟩] (some false) (some false) =
      .ok { number := 1, mnemonic := "x", transform := some 1,
            periodic := none, is_reflecting := false,
            is_whiteboundary := false,
            parameters := [some ⟨1, 0⟩, some ⟨2, 0⟩, none, none, none, none],
            kind := "SurfaceX" } ∧
    surfaceInit (some 1) (some "box") (some 1)
        [some ⟨1, 0⟩, some ⟨2, 0⟩, some ⟨3, 0⟩, some ⟨4, 0⟩, some ⟨5, 0⟩,
         some ⟨6, 0⟩, some ⟨7, 0⟩, some ⟨8, 0⟩, some ⟨9, 0⟩, some ⟨10, 0⟩]
        (some false) (some false) =
      .error (.semantic .invalidSurfaceParameter) := by decide

/-- C7: the claim asserts all six cone mnemonics map to distinct kinds and
unknown tokens are rejected.  The enum declares `CONEONZ = "kx"`, a
duplicate of `CONEONX`, so `"kz"` is not an enum value and is rejected as
an unknown mnemonic while the other five cone mnemonics are accepted. -/
theorem c7_cone_mnemonic_kz_rejected :
    surfaceMnemonicFromMcnp "kz" = .error (.semantic .invalidSurfaceMnemonic) ∧
    mnemonicValues.contains "kz" = false ∧
    surfaceMnemonicFromMcnp "kx" = .ok "kx" ∧
    surfaceMnemonicFromMcnp "ky" = .ok "ky" ∧
    surfaceMnemonicFromMcnp "k/x" = .ok "k/x" ∧
    surfaceMnemonicFromMcnp "k/y" = .ok "k/y" ∧
    surfaceMnemonicFromMcnp "k/z" = .ok "k/z" ∧
    surfaceMnemonicFromMcnp "qq" = .error (.semantic .invalidSurfaceMnemonic) := by
  decide

/-- C9 counterexample: a `"cz"` card with zero numeric parameters fails
with `INVALID_SURFACE_PARAMETER` (the `not parameters` check in
`Surface.__init__`), not with either `TOOFEW` syntax error. -/
theorem c9_counterexample_cz_invalid_parameter :
    surfaceFromMcnp "1 cz" = .error (.semantic .invalidSurfaceParameter) ∧
    surfaceFromMcnp "1 cz" ≠ .error (.syn .toofewSurfaceEntries) ∧
    surfaceFromMcnp "1 cz" ≠ .error (.syn .toofewSurface) := by decide

/-- C9 (amended): a `"cz"` surface with zero numeric parameters always
fails construction with `INVALID_SURFACE_PARAMETER`: the empty-parameter
check of `Surface.__init__` fires before any dispatch, whatever the
transform/periodic value and boundary flags. -/
theorem c9_amended_cz_empty_params (n : Int) (hn1 : 1 ≤ n) (hn2 : n ≤ 99999999)
    (tp : Option Int) (iwb irf : Option Bool) :
    surfaceInit (some n) (some "cz") tp [] iwb irf =
      .error (.semantic .invalidSurfaceParameter) := rfl

/-- C9 witness: the amended statement at a concrete input. -/
theorem c9_amended_cz_empty_params_witness :
    surfaceInit (some 1) (some "cz") none [] (some false) (some false) =
      .error (.semantic .invalidSurfaceParameter) :=
  c9_amended_cz_empty_params 1 (by decide) (by decide) none (some false) (some false)

/-- C4 counterexample: `"p"` with zero numeric parameters raises
`INVALID_SURFACE_PARAMETER` (the empty-parameter check of
`Surface.__init__` fires before dispatch), not an arity error, both
programmatically and from card text. -/
theorem c4_counterexample_zero_params :
    surfaceInit (some 1) (some "p") (some 1) [] (some false) (some false) =
      .error (.semantic .invalidSurfaceParameter) ∧
    surfaceInit (some 1) (some "p") (some 1) [] (some false) (some false) ≠
      .error (.syn .toofewSurfaceEntries) ∧
    surfaceFromMcnp "1 1 p" = .error (.semantic .invalidSurfaceParameter) := by
  decide

/-- C4 (amended): for mnemonic `"p"` with a valid number, a present
valid transform/periodic value and no placeholder parameters: exactly 4
parameters resolve to the equation-form plane `PlaneGeneralEquation`,
exactly 9 resolve to the point-form plane `PlaneGeneralPoint`, any other
nonzero count raises the arity error `TOOFEW_SURFACE_ENTRIES`, and zero
parameters raise `INVALID_SURFACE_PARAMETER` instead. -/
theorem c4_amended_plane_arity (n t : Int) (hn : 1 ≤ n ∧ n ≤ 99999999)
    (ht : -99999999 ≤ t ∧ t ≤ 999) (params : List (Option Dec))
    (hp : ∀ p ∈ params, p.isSome) :
    (params.length = 4 →
      surfaceInit (some n) (some "p") (some t) params (some false) (some false) =
        .ok { number := n, mnemonic := "p",
              transform := if t > 0 then some t else none,
              periodic := if t < 0 then some t else none,
              is_reflecting := false, is_whiteboundary := false,
              parameters := params, kind := "PlaneGeneralEquation" }) ∧
    (params.length = 9 →
      surfaceInit (some n) (some "p") (some t) params (some false) (some false) =
        .ok { number := n, mnemonic := "p",
              transform := if t > 0 then some t else none,
              periodic := if t < 0 then some t else none,
              is_reflecting := false, is_whiteboundary := false,
              parameters := params, kind := "PlaneGeneralPoint" }) ∧
    (params.length ≠ 0 → params.length ≠ 4 → params.length ≠ 9 →
      surfaceInit (some n) (some "p") (some t) params (some false) (some false) =
        .error (.syn .toofewSurfaceEntries)) ∧
    (params.length = 0 →
      surfaceInit (some n) (some "p") (some t) params (some false) (some false) =
        .error (.semantic .invalidSurfaceParameter)) := by
  refine ⟨?_, ?_, ?_, ?_⟩
  · intro h4
    have hne : params.isEmpty = false := by
      cases params with
      | nil => simp at h4
      | cons a l => simp
    rw [surfaceInit]
    simp only [hne, Bool.false_eq_true, if_false]
    rw [surfaceDispatch]
    simp only [if_pos rfl, h4, if_pos]
    rw [mkRequired_ok "PlaneGeneralEquation" "p" 4 n t hn ht params h4 hp]
  · intro h9
    have hne : params.isEmpty = false := by
      cases params with
      | nil => simp at h9
      | cons a l => simp
    have h4 : ¬(params.length = 4) := by omega
    rw [surfaceInit]
    simp only [hne, Bool.false_eq_true, if_false]
    rw [surfaceDispatch]
    simp only [if_pos rfl, h4, if_false]
    rw [mkRequired_ok "PlaneGeneralPoint" "p" 9 n t hn ht params h9 hp]
    simp
  · intro h0 h4 h9
    have hne : params.isEmpty = false := by
      cases params with
      | nil => simp at h0
      | cons a l => simp
    rw [surfaceInit]
    simp only [hne, Bool.false_eq_true, if_false]
    rw [surfaceDispatch]
    simp only [if_pos rfl, h4, if_false]
    rw [mkRequired_arity_typeError "PlaneGeneralPoint" "p" 9 (some n) (some t)
      params (some false) (some false) h9]
    simp
  · intro h0
    have : params = [] := List.length_eq_zero.mp h0
    subst this
    rfl

/-- C4 witness: the amended statement at concrete inputs: four parameters
give the equation form, five give the arity error. -/
theorem c4_amended_plane_arity_witness :
    surfaceInit (some 1) (some "p") (some 1)
        [some ⟨1, 0⟩, some ⟨2, 0⟩, some ⟨3, 0⟩, some ⟨4, 0⟩]
        (some false) (some false) =
      .ok { number := 1, mnemonic := "p", transform := some 1,
            periodic := none, is_reflecting := false, is_whiteboundary := false,
            parameters := [some ⟨1, 0⟩, some ⟨2, 0⟩, some ⟨3, 0⟩, some ⟨4, 0⟩],
            kind := "PlaneGeneralEquation" } ∧
    surfaceInit (some 1) (some "p") (some 1)
        [some ⟨1, 0⟩, some ⟨2, 0⟩, some ⟨3, 0⟩, some ⟨4, 0⟩, some ⟨5, 0⟩]
        (some false) (some false) =
      .error (.syn .toofewSurfaceEntries) :=
  ⟨(c4_amended_plane_arity 1 1 (by decide) (by decide) _ (by decide)).1 (by decide),
   (c4_amended_plane_arity 1 1 (by decide) (by decide) _
      (by decide)).2.2.1 (by decide) (by decide) (by decide)⟩

/-- C10: `to_arguments` maps key `"+"` to `is_reflecting` and key `"*"` to
`is_whiteboundary`, while the card grammar associates the characters the
other way round: a leading `+` sets `is_whiteboundary` and a leading `*`
sets `is_reflecting`.  The concrete card `"+1 2 so 5.0"` exhibits the
reversal end to end: it parses with `is_whiteboundary = true`, and its
arguments dictionary reports `"+" ↦ false` and `"*" ↦ true`. -/
theorem c10_to_arguments_reverse_association :
    (∀ s : SurfaceRec,
      (surfaceToArguments s).plus = s.is_reflecting ∧
      (surfaceToArguments s).star = s.is_whiteboundary) ∧
    (∀ (rest : String) (ts : List String),
      parseBoundaryFlags (("+" ++ rest) :: ts) = .ok (true, false, rest :: ts)) ∧
    (∀ (rest : String) (ts : List String),
      parseBoundaryFlags (("*" ++ rest) :: ts) = .ok (false, true, rest :: ts)) ∧
    surfaceFromMcnp "+1 2 so 5.0" =
      .ok { number := 1, mnemonic := "so", transform := some 2, periodic := none,
            is_reflecting := false, is_whiteboundary := true,
            parameters := [some ⟨5, 0⟩], kind := "SphereOrigin" } ∧
    surfaceToArguments
        { number := 1, mnemonic := "so", transform := some 2, periodic := none,
          is_reflecting := false, is_whiteboundary := true,
          parameters := [some ⟨5, 0⟩], kind := "SphereOrigin" } =
      { j := 1, plus := false, star := true, n := some 2, A := "so",
        list := [some ⟨5, 0⟩] } := by
  refine ⟨fun s => ⟨rfl, rfl⟩, ?_, ?_, by decide, by decide⟩
  · intro rest ts
    obtain ⟨l⟩ := rest
    have h : ("+" ++ String.mk l) = String.mk ('+' :: l) := rfl
    rw [h]
    simp [parseBoundaryFlags]
  · intro rest ts
    obtain ⟨l⟩ := rest
    have h : ("*" ++ String.mk l) = String.mk ('*' :: l) := rfl
    rw [h]
    simp [parseBoundaryFlags]

/-! ### Claim theorems: PTRAC decoder -/

/-- C6 counterexample: input ending in the middle of a history (an I-line
announcing an initial-source event, then a J-line with no P-line) decodes
*successfully*: the inner `next(fin)` raises `StopIteration`, which the
`except StopIteration: pass` around the whole history loop swallows, so no
truncated-file error is reported. -/
theorem c6_counterexample_truncation_succeeds :
    readFileLoop ⟨4, fun _ => []⟩ [[1, 1000, 0, 0], [9000]] =
      .error .stopIteration ∧
    readFileSuccess ⟨4, fun _ => []⟩ [[1, 1000, 0, 0], [9000]] = true := by
  have h1 : historyInit 4 [1, 1000, 0, 0] = .ok ("initial source", 1000) := by decide
  have h2 : histLoop ⟨4, fun _ => []⟩ ("initial source", 1000) [[9000]] =
      .error .stopIteration := by decide
  have h3 : readFileLoop ⟨4, fun _ => []⟩ [[1, 1000, 0, 0], [9000]] =
      .error .stopIteration := by
    rw [readFileLoop]
    simp only [h1]
    split
    next e hlr2 =>
      rw [h2] at hlr2
      injection hlr2 with h
      rw [h]
    next rest2 hlr2 =>
      rw [h2] at hlr2
      exact Except.noConfusion hlr2
  exact ⟨h3, by rw [readFileSuccess, h3]⟩

/-- C6 (amended): end of input while awaiting the next history's I-line is
normal end-of-file, but end of input in the middle of a history's events
is *also* swallowed: both paths raise `StopIteration`, and the
`except StopIteration: pass` wrapping the whole history loop turns any
such end into a successful return, so no truncated-file error exists. -/
theorem c6_amended_eof_always_success :
    (∀ hdr : PtracRunHeader, readFileLoop hdr [] = .error .stopIteration) ∧
    (∀ (hdr : PtracRunHeader) (st : String × Int), st.1 ≠ "final" →
      histLoop hdr st [] = .error .stopIteration) ∧
    (∀ (hdr : PtracRunHeader) (st : String × Int) (l : List Int), st.1 ≠ "final" →
      histLoop hdr st [l] = .error .stopIteration) ∧
    (∀ (hdr : PtracRunHeader) (lines : List (List Int)),
      readFileLoop hdr lines = .error .stopIteration →
      readFileSuccess hdr lines = true) := by
  refine ⟨?_, ?_, ?_, ?_⟩
  · intro hdr
    rw [readFileLoop]
  · intro hdr st h
    simp [histLoop, h]
  · intro hdr st l h
    simp [histLoop, h]
  · intro hdr lines h
    rw [readFileSuccess, h]

/-- C6 witness: the amended statement at concrete inputs. -/
theorem c6_amended_eof_always_success_witness :
    histLoop ⟨4, fun _ => []⟩ ("surface", 3000) [] = .error .stopIteration ∧
    readFileSuccess ⟨4, fun _ => []⟩ [] = true :=
  ⟨c6_amended_eof_always_success.2.1 ⟨4, fun _ => []⟩ ("surface", 3000) (by decide),
   c6_amended_eof_always_success.2.2.2 ⟨4, fun _ => []⟩ []
     (c6_amended_eof_always_success.1 ⟨4, fun _ => []⟩)⟩

/-- C8 counterexample: an unrecognised bank sub-event code is *fatal*, not
a recoverable placeholder: `parse_bank` falls off its function and returns
`None`, and the `t, e = parse_bank(...)` unpacking in `Event.parse` raises
`TypeError`, aborting the event (and hence the decode) instead of
continuing. -/
theorem c8_counterexample_bank_code_fatal :
    parse_bank 2027 = none ∧
    eventStep (fun _ => ["next event type"]) "bank" 2027 [9000] =
      .error .typeError := by decide

/-- C8 (amended): only an unrecognised IPT value is non-fatal in the
claimed sense: `get_particle` records the empty-string placeholder (which
is neither recognised particle name) and event decoding continues to the
next event.  An unrecognised termination code yields the "need to
implement" placeholder only when the particle itself is unrecognised; for
a recognised particle (neutron here) it raises `KeyError`, and an
unrecognised bank sub-event code makes `parse_bank` return `None`, which
aborts `Event.parse` with `TypeError`. -/
theorem c8_amended_unrecognised_codes :
    (∀ nr : Int, nr ≠ 1 → nr ≠ 2 → get_particle nr = "") ∧
    (("" : String) ≠ "neutron" ∧ ("" : String) ≠ "photon") ∧
    (∀ (layout : String → List String) (curId : Int) (line : List Int),
      parse_bank curId = none →
      eventStep layout "bank" curId line = .error .typeError) ∧
    (∀ (idx : Int) (p : Option String), 11 ≤ idx →
      p ≠ some "neutron" → p ≠ some "photon" →
      get_termination_type idx p =
        .ok ("need to implement termination type " ++ toString idx ++ " for " ++
          (match p with | some s => s | none => "None"))) ∧
    get_termination_type 18 (some "neutron") = .error .keyError ∧
    eventStep (fun c => if c = "surface" then ["next event type", "IPT"] else [])
        "surface" 3000 [9000, 7] =
      .ok ({ event_type := "surface", bank_extra := none, ntyn := none,
             nxs := none, particle_raw := some 7, particle := some "",
             source := none, node := none, surface := none,
             cell_number := none, material := none, branch_number := none,
             angle := none, termination_raw := none, termination := none,
             pos := none, dir := none, ncp := none, energy := none,
             weight := none, time := none, misc := [] },
            "final", 9000) := by
  refine ⟨?_, ⟨by decide, by decide⟩, ?_, ?_, by decide, by decide⟩
  · intro nr h1 h2
    simp [get_particle, h1, h2]
  · intro layout curId line hpb
    simp [eventStep, hpb]
  · intro idx p hidx hp1 hp2
    have h11 : ¬(idx < 11) := by omega
    simp [get_termination_type, h11, hp1, hp2]

/-- C8 witness: the amended statement at concrete inputs. -/
theorem c8_amended_unrecognised_codes_witness :
    get_particle 7 = "" ∧
    eventStep (fun _ => ["next event type"]) "bank" 2500 [1] =
      .error .typeError ∧
    get_termination_type 18 none =
      .ok ("need to implement termination type " ++ toString (18 : Int) ++
        " for " ++ "None") ∧
    eventStep (fun c => if c = "surface" then ["next event type", "IPT"] else [])
        "surface" 3000 [9000, 7] =
      .ok ({ event_type := "surface", bank_extra := none, ntyn := none,
             nxs := none, particle_raw := some 7, particle := some "",
             source := none, node := none, surface := none,
             cell_number := none, material := none, branch_number := none,
             angle := none, termination_raw := none, termination := none,
             pos := none, dir := none, ncp := none, energy := none,
             weight := none, time := none, misc := [] },
            "final", 9000) :=
  ⟨c8_amended_unrecognised_codes.1 7 (by decide) (by decide),
   c8_amended_unrecognised_codes.2.2.1 _ 2500 [1] (by decide),
   c8_amended_unrecognised_codes.2.2.2.1 18 none (by decide) (by decide) (by decide),
   c8_amended_unrecognised_codes.2.2.2.2.2⟩

/-! ### Helper lemmas for the header identifier run -/

theorem readRecord_of_length_le {slots : Nat} {line : List Int}
    (h : line.length ≤ slots) :
    readRecord slots line = line.map some ++ List.replicate (slots - line.length) none := by
  unfold readRecord
  rw [List.take_of_length_le (by simpa using h)]

theorem readRecord_of_le_length {slots : Nat} {line : List Int}
    (h : slots ≤ line.length) :
    readRecord slots line = (line.take slots).map some := by
  unfold readRecord
  rw [Nat.sub_eq_zero_of_le h]
  simp [List.map_take]

theorem idLoop_done (need : Nat) (lines : List (List Int))
    (L : List (Option Int)) (h : need ≤ L.length) :
    idLoop need lines L = some (L, lines) := by
  cases lines <;> simp [idLoop, h]

theorem idLoop_chunks (need : Nat) :
    ∀ (n : Nat) (R : List Int) (extra : List (List Int)) (L : List (Option Int)),
      R.length = n → L.length + R.length = need → R ≠ [] →
      idLoop need (chunks30 R ++ extra) L = some (L ++ R.map some, extra) := by
  intro n
  induction n using Nat.strong_induction_on with
  | _ n ih =>
    intro R extra L hn hlen hne
    match R, hne with
    | a :: R', _ =>
      simp only [List.length_cons] at hn hlen
      rw [chunks30, List.cons_append, idLoop]
      have hlt : ¬(need ≤ L.length) := by omega
      rw [if_neg hlt]
      by_cases hc : (a :: R').length ≤ 30
      · have htake : (a :: R').take 30 = a :: R' := List.take_of_length_le hc
        have hdrop : (a :: R').drop 30 = [] := List.drop_eq_nil_of_le hc
        simp only [List.length_cons] at hc htake hdrop
        have hmin : min 30 (need - L.length) = (a :: R').length := by
          simp only [List.length_cons]
          omega
        rw [hmin, htake, hdrop, chunks30, List.nil_append,
          readRecord_of_length_le (le_refl _), Nat.sub_self, List.replicate_zero,
          List.append_nil, idLoop_done]
        simp only [List.length_append, List.length_map, List.length_cons]
        omega
      · push_neg at hc
        simp only [List.length_cons] at hc
        have hmin : min 30 (need - L.length) = 30 := by omega
        have h30 : ((a :: R').take 30).length = 30 := by simp; omega
        rw [hmin, readRecord_of_length_le (le_of_eq h30), h30, Nat.sub_self,
          List.replicate_zero, List.append_nil]
        have hlen' : ((a :: R').drop 30).length = R'.length + 1 - 30 := by
          simp
        have hne' : (a :: R').drop 30 ≠ [] := by
          intro hcon
          have := congrArg List.length hcon
          simp at this
          omega
        rw [ih (((a :: R').drop 30).length) (by simp; omega) ((a :: R').drop 30)
          extra (L ++ ((a :: R').take 30).map some) rfl
          (by simp; omega) hne']
        rw [List.append_assoc, ← List.map_append, List.take_append_drop]

theorem pySlice_take_eq {α : Type} {L M : List α} {nd : Nat}
    (h : L.take nd = M) {a b : Nat} (hb : b ≤ nd) :
    pySlice L a b = pySlice M a b := by
  unfold pySlice
  rw [← h, List.take_take, min_eq_left hb]

theorem pySlice_map_some (R : List Int) (a b : Nat) :
    pySlice (R.map some) a b = (pySlice R a b).map some := by
  unfold pySlice
  rw [← List.map_take, ← List.map_drop]

theorem pySlice_append_adjacent (R : List Int) (a b c : Nat)
    (hab : a ≤ b) (hbc : b ≤ c) :
    pySlice R a b ++ pySlice R b c = pySlice R a c := by
  unfold pySlice
  rw [List.drop_take b a R, List.drop_take c b R, List.drop_take c a R]
  have hb : R.drop b = (R.drop a).drop (b - a) := by
    rw [List.drop_drop]
    congr 1
    omega
  rw [hb, show c - a = (b - a) + (c - b) by omega, List.take_add]

theorem headerBounds (c : PtracCounts) :
    cN1 c ≤ cNsrc c ∧ cNsrc c ≤ cNbnk c ∧ cNbnk c ≤ cNsur c ∧
    cNsur c ≤ cNcol c ∧ cNcol c ≤ cNter c := by
  simp only [cN1, cNsrc, cNbnk, cNsur, cNcol, cNter]
  omega

/-- C3: the PTRAC header field-layout decode.  For any counts and any
identifier run `R` of exactly the required total length
`n_nps + (n_src1+n_src2) + (n_bnk1+n_bnk2) + (n_sur1+n_sur2) +
(n_col1+n_col2) + (n_ter1+n_ter2)`, laid out thirty to a line (however
many lines that takes), the length-driven loop consumes exactly those
lines — later lines are left untouched — and assigns each category the
contiguous slice of `R` between its running prefix sums, in the fixed
order NPS, source, bank, surface, collision, termination; the six slices
concatenate back to the whole run. -/
theorem c3_header_id_run (c : PtracCounts) (R : List Int)
    (extra : List (List Int)) (hR : R.length = cNter c) (h0 : 0 < cNter c) :
    headerIdBlock c (chunks30 R ++ extra) =
      some ({ nps := (pySlice R 0 (cN1 c)).map some,
              src := (pySlice R (cN1 c) (cNsrc c)).map some,
              bank := (pySlice R (cNsrc c) (cNbnk c)).map some,
              surface := (pySlice R (cNbnk c) (cNsur c)).map some,
              collision := (pySlice R (cNsur c) (cNcol c)).map some,
              termination := (pySlice R (cNcol c) (cNter c)).map some }, extra) ∧
    pySlice R 0 (cN1 c) ++ pySlice R (cN1 c) (cNsrc c) ++
      pySlice R (cNsrc c) (cNbnk c) ++ pySlice R (cNbnk c) (cNsur c) ++
      pySlice R (cNsur c) (cNcol c) ++ pySlice R (cNcol c) (cNter c) = R := by
  obtain ⟨hb1, hb2, hb3, hb4, hb5⟩ := headerBounds c
  constructor
  · cases R with
    | nil =>
      rw [show ([] : List Int).length = 0 from rfl] at hR
      omega
    | cons a R' =>
      have key : ∀ (L : List (Option Int)), L.take (cNter c) = (a :: R').map some →
          ∀ x y : Nat, y ≤ cNter c →
          pySlice L x y = (pySlice (a :: R') x y).map some := by
        intro L hL x y hy
        rw [pySlice_take_eq hL hy, pySlice_map_some]
      have hRlen : R'.length + 1 = cNter c := by simpa using hR
      rw [chunks30, List.cons_append]
      by_cases hc : (a :: R').length ≤ 30
      · have htake : (a :: R').take 30 = a :: R' := List.take_of_length_le hc
        have hdrop : (a :: R').drop 30 = [] := List.drop_eq_nil_of_le hc
        rw [htake, hdrop, chunks30, List.nil_append]
        simp only [headerIdBlock]
        rw [readRecord_of_length_le hc]
        rw [idLoop_done _ _ _ (by
          simp only [List.length_append, List.length_map, List.length_replicate,
            List.length_cons]
          omega)]
        have hL : ((a :: R').map some ++
            List.replicate (30 - (a :: R').length) none).take (cNter c) =
            (a :: R').map some := by
          rw [← hR]
          have := List.take_left ((a :: R').map some)
            (List.replicate (30 - (a :: R').length) none)
          simpa using this
        simp only [Option.map_some']
        rw [key _ hL 0 (cN1 c) (le_trans hb1 (le_trans hb2 (le_trans hb3 (le_trans hb4 hb5)))),
          key _ hL (cN1 c) (cNsrc c) (le_trans hb2 (le_trans hb3 (le_trans hb4 hb5))),
          key _ hL (cNsrc c) (cNbnk c) (le_trans hb3 (le_trans hb4 hb5)),
          key _ hL (cNbnk c) (cNsur c) (le_trans hb4 hb5),
          key _ hL (cNsur c) (cNcol c) hb5,
          key _ hL (cNcol c) (cNter c) (le_refl _)]
      · push_neg at hc
        simp only [List.length_cons] at hc
        simp only [headerIdBlock]
        have h30 : ((a :: R').take 30).length = 30 := by
          simp only [List.length_take, List.length_cons]
          omega
        rw [readRecord_of_length_le (le_of_eq h30), h30, Nat.sub_self,
          List.replicate_zero, List.append_nil]
        have hne' : (a :: R').drop 30 ≠ [] := by
          intro hcon
          have := congrArg List.length hcon
          simp at this
          omega
        rw [idLoop_chunks (cNter c) (((a :: R').drop 30).length) ((a :: R').drop 30)
          extra (((a :: R').take 30).map some) rfl
          (by
            simp only [List.length_map, List.length_take, List.length_drop,
              List.length_cons]
            omega) hne']
        rw [← List.map_append, List.take_append_drop]
        have hL : ((a :: R').map some).take (cNter c) = (a :: R').map some := by
          apply List.take_of_length_le
          simp only [List.length_map, List.length_cons]
          omega
        simp only [Option.map_some']
        rw [key _ hL 0 (cN1 c) (le_trans hb1 (le_trans hb2 (le_trans hb3 (le_trans hb4 hb5)))),
          key _ hL (cN1 c) (cNsrc c) (le_trans hb2 (le_trans hb3 (le_trans hb4 hb5))),
          key _ hL (cNsrc c) (cNbnk c) (le_trans hb3 (le_trans hb4 hb5)),
          key _ hL (cNbnk c) (cNsur c) (le_trans hb4 hb5),
          key _ hL (cNsur c) (cNcol c) hb5,
          key _ hL (cNcol c) (cNter c) (le_refl _)]
  · rw [pySlice_append_adjacent R 0 (cN1 c) (cNsrc c) (Nat.zero_le _) hb1,
      pySlice_append_adjacent R 0 (cNsrc c) (cNbnk c) (Nat.zero_le _) hb2,
      pySlice_append_adjacent R 0 (cNbnk c) (cNsur c) (Nat.zero_le _) hb3,
      pySlice_append_adjacent R 0 (cNsur c) (cNcol c) (Nat.zero_le _) hb4,
      pySlice_append_adjacent R 0 (cNcol c) (cNter c) (Nat.zero_le _) hb5]
    unfold pySlice
    rw [List.drop_zero, List.take_of_length_le (le_of_eq hR)]

/-- C3 witness: the layout theorem at concrete counts whose total (35)
spans two identifier lines, with one unrelated line left unconsumed. -/
theorem c3_header_id_run_witness :
    headerIdBlock ⟨2, 3, 4, 5, 6, 2, 3, 4, 3, 1, 2⟩
        (chunks30 ((List.range 35).map Int.ofNat) ++ [[7]]) =
      some ({ nps := (pySlice ((List.range 35).map Int.ofNat) 0
                (cN1 ⟨2, 3, 4, 5, 6, 2, 3, 4, 3, 1, 2⟩)).map some,
              src := (pySlice ((List.range 35).map Int.ofNat)
                (cN1 ⟨2, 3, 4, 5, 6, 2, 3, 4, 3, 1, 2⟩)
                (cNsrc ⟨2, 3, 4, 5, 6, 2, 3, 4, 3, 1, 2⟩)).map some,
              bank := (pySlice ((List.range 35).map Int.ofNat)
                (cNsrc ⟨2, 3, 4, 5, 6, 2, 3, 4, 3, 1, 2⟩)
                (cNbnk ⟨2, 3, 4, 5, 6, 2, 3, 4, 3, 1, 2⟩)).map some,
              surface := (pySlice ((List.range 35).map Int.ofNat)
                (cNbnk ⟨2, 3, 4, 5, 6, 2, 3, 4, 3, 1, 2⟩)
                (cNsur ⟨2, 3, 4, 5, 6, 2, 3, 4, 3, 1, 2⟩)).map some,
              collision := (pySlice ((List.range 35).map Int.ofNat)
                (cNsur ⟨2, 3, 4, 5, 6, 2, 3, 4, 3, 1, 2⟩)
                (cNcol ⟨2, 3, 4, 5, 6, 2, 3, 4, 3, 1, 2⟩)).map some,
              termination := (pySlice ((List.range 35).map Int.ofNat)
                (cNcol ⟨2, 3, 4, 5, 6, 2, 3, 4, 3, 1, 2⟩)
                (cNter ⟨2, 3, 4, 5, 6, 2, 3, 4, 3, 1, 2⟩)).map some }, [[7]]) ∧
    pySlice ((List.range 35).map Int.ofNat) 0 (cN1 ⟨2, 3, 4, 5, 6, 2, 3, 4, 3, 1, 2⟩) ++
      pySlice ((List.range 35).map Int.ofNat) (cN1 ⟨2, 3, 4, 5, 6, 2, 3, 4, 3, 1, 2⟩)
        (cNsrc ⟨2, 3, 4, 5, 6, 2, 3, 4, 3, 1, 2⟩) ++
      pySlice ((List.range 35).map Int.ofNat) (cNsrc ⟨2, 3, 4, 5, 6, 2, 3, 4, 3, 1, 2⟩)
        (cNbnk ⟨2, 3, 4, 5, 6, 2, 3, 4, 3, 1, 2⟩) ++
      pySlice ((List.range 35).map Int.ofNat) (cNbnk ⟨2, 3, 4, 5, 6, 2, 3, 4, 3, 1, 2⟩)
        (cNsur ⟨2, 3, 4, 5, 6, 2, 3, 4, 3, 1, 2⟩) ++
      pySlice ((List.range 35).map Int.ofNat) (cNsur ⟨2, 3, 4, 5, 6, 2, 3, 4, 3, 1, 2⟩)
        (cNcol ⟨2, 3, 4, 5, 6, 2, 3, 4, 3, 1, 2⟩) ++
      pySlice ((List.range 35).map Int.ofNat) (cNcol ⟨2, 3, 4, 5, 6, 2, 3, 4, 3, 1, 2⟩)
        (cNter ⟨2, 3, 4, 5, 6, 2, 3, 4, 3, 1, 2⟩) =
      (List.range 35).map Int.ofNat :=
  c3_header_id_run ⟨2, 3, 4, 5, 6, 2, 3, 4, 3, 1, 2⟩ ((List.range 35).map Int.ofNat)
    [[7]] (by decide) (by decide)
